import Mathlib

/-!
Shallow embedding of the `simplemind` provider adapters (Gemini, Groq,
Ollama) from `src/simplemind/providers/`.  Transports are modelled as
oracles (pure functions from the request the adapter builds to either a
response or a transport exception code).  Each adapter operation returns
the Python result (`Except PyErr _`), the trace of requests that actually
reached the transport, and the updated adapter instance state (so that
lazy client caching is observable).
-/

namespace Simplemind

/-- Python exception values relevant to the adapters.  `transport e` is a
raw exception raised by a vendor SDK call (identified by an opaque code);
`runtimeError msg cause` is `raise RuntimeError(msg) from cause`;
`valueError` is `raise ValueError(msg)`; the rest are the builtin
exceptions the adapters can raise implicitly (`list[-1]` on an empty
list, `None.get`, `d["k"]` on a missing key). -/
inductive PyErr where
  | valueError (msg : String)
  | runtimeError (msg : String) (cause : PyErr)
  | indexError
  | attributeError
  | keyError
  | transport (code : Nat)
deriving Repr, DecidableEq

/-- Whether an exception value is one of the adapters' own wrapped
re-raises (the code's realization of the spec's canonical
`ProviderRequestError`) rather than a raw propagated exception. -/
def PyErr.isWrapped : PyErr → Bool
  | .runtimeError _ _ => true
  | _ => false

/-- Python truthiness of an optional string: `None` and `""` are falsy. -/
def pyStrTruthy : Option String → Bool
  | none => false
  | some s => s ≠ ""

/-- Python `a or b` for an optional string `a` and string `b`. -/
def pyOrStr (a : Option String) (b : String) : String :=
  if pyStrTruthy a then a.getD b else b

/-- Modelled from the spec: the canonical `Message` record lives in
`simplemind/models.py`, which is not among the provided sources.  The
spec describes it as a record with `role`, `text` (a string), `raw` (the
opaque backend-native payload, here an opaque id), `llm_model` and
`llm_provider`.  `text` is kept as `Option String` so as to track
faithfully the possibly-`None` value an adapter passes to the
constructor. -/
structure Message where
  role : String
  text : Option String
  raw : Nat
  llm_model : String
  llm_provider : String
deriving Repr, DecidableEq

/-- Modelled from the spec: a `Conversation` is an ordered sequence of
messages with an optional `llm_model` override. -/
structure Conversation where
  messages : List Message
  llm_model : Option String
deriving Repr, DecidableEq

/-! ## Gemini adapter (`src/simplemind/providers/gemini.py`) -/

def Gemini.PROVIDER_NAME : String := "gemini"

def Gemini.DEFAULT_MODEL : String := "models/gemini-1.5-flash-latest"

/-- A constructed `genai.GenerativeModel` handle: the model it is bound
to plus a construction index (so distinct constructions are
distinguishable). -/
structure GeminiClient where
  model_name : String
  cid : Nat
deriving Repr, DecidableEq

/-- Instance state of a `Gemini` adapter: the resolved `api_key` and
`model_name` attributes, the `cached_property` slots for `client` and
`structured_client`, and a counter of client constructions performed. -/
structure GeminiState where
  api_key : Option String
  model_name : String
  cachedClient : Option GeminiClient
  cachedStructured : Option GeminiClient
  constructions : Nat
deriving Repr, DecidableEq

/-- `Gemini.__init__`: `self.api_key = api_key or settings.get_api_key(...)`;
`self.model_name = DEFAULT_MODEL`.  The constructor only assigns
attributes, so it is a total function (it cannot raise). -/
def Gemini.init (api_key settingsKey : Option String) : GeminiState :=
  { api_key := if pyStrTruthy api_key then api_key else settingsKey
    model_name := Gemini.DEFAULT_MODEL
    cachedClient := none
    cachedStructured := none
    constructions := 0 }

/-- The `client` cached property: on a cache miss it raises `ValueError`
when the api key is missing, otherwise constructs a `GenerativeModel`
bound to `DEFAULT_MODEL` (the `model_name` parameter of the property
function can never be supplied through `cached_property`, so it is
always the default) and caches it.  A raising access caches nothing. -/
def Gemini.clientAccess (s : GeminiState) : Except PyErr (GeminiClient × GeminiState) :=
  match s.cachedClient with
  | some c => .ok (c, s)
  | none =>
    if pyStrTruthy s.api_key then
      let c : GeminiClient := { model_name := Gemini.DEFAULT_MODEL, cid := s.constructions }
      .ok (c, { s with model_name := Gemini.DEFAULT_MODEL
                       cachedClient := some c
                       constructions := s.constructions + 1 })
    else .error (.valueError "Gemini API key is required")

/-- The `structured_client` cached property: `instructor.from_gemini(self.client)`;
the structured handle is the wrapped raw client, cached separately. -/
def Gemini.structuredClientAccess (s : GeminiState) : Except PyErr (GeminiClient × GeminiState) :=
  match s.cachedStructured with
  | some c => .ok (c, s)
  | none =>
    match Gemini.clientAccess s with
    | .error e => .error e
    | .ok (c, s1) => .ok (c, { s1 with cachedStructured := some c })

/-- A Gemini transport response: its `.text` and an opaque identity used
for the `raw` field. -/
structure GeminiResp where
  text : String
  rid : Nat
deriving Repr, DecidableEq

/-- The context-replay loop of `Gemini.send_conversation`:
`for msg in conversation.messages[:-1]: chat.send_message(msg.text)`.
This loop is outside the `try` block, so a transport exception here
propagates raw.  Returns the exception (if any) and the trace of texts
sent to the transport. -/
def Gemini.replay (send : Option String → Except Nat GeminiResp) :
    List Message → List (Option String) → Option PyErr × List (Option String)
  | [], tr => (none, tr)
  | m :: rest, tr =>
    match send m.text with
    | .ok _ => Gemini.replay send rest (tr ++ [m.text])
    | .error e => (some (.transport e), tr ++ [m.text])

/-- `Gemini.send_conversation`: accesses `client`, starts a chat, replays
all messages but the last (outside the `try`), then sends the last
message inside a `try` that re-raises any exception as
`RuntimeError(...) from e`.  On an empty conversation the indexing
`conversation.messages[-1]` raises `IndexError` inside the `try`, so it
too is re-raised wrapped.  The result Message uses `self.model_name`
(always the default) and the provider name. -/
def Gemini.sendConversation (s : GeminiState)
    (send : Option String → Except Nat GeminiResp) (conv : Conversation) :
    (Except PyErr Message × List (Option String)) × GeminiState :=
  match Gemini.clientAccess s with
  | .error e => ((.error e, []), s)
  | .ok (_, s1) =>
    match Gemini.replay send conv.messages.dropLast [] with
    | (some e, tr) => ((.error e, tr), s1)
    | (none, tr) =>
      match conv.messages.getLast? with
      | none =>
        ((.error (.runtimeError "Failed to send conversation to Gemini API" .indexError), tr), s1)
      | some last =>
        match send last.text with
        | .error e =>
          ((.error (.runtimeError "Failed to send conversation to Gemini API" (.transport e)),
            tr ++ [last.text]), s1)
        | .ok resp =>
          ((.ok { role := "assistant", text := some resp.text, raw := resp.rid,
                  llm_model := s1.model_name, llm_provider := Gemini.PROVIDER_NAME },
            tr ++ [last.text]), s1)

/-- `Gemini.generate_text`: pops `llm_model` from kwargs but never uses
it; calls `self.client.generate_content(prompt)` against the client's
own bound model, wrapping any exception in `RuntimeError ... from e`.
The trace records the (model, prompt) pairs the transport received. -/
def Gemini.generateText (s : GeminiState)
    (genContent : String → String → Except Nat GeminiResp)
    (prompt : String) (llmModelKwarg : Option String) :
    (Except PyErr String × List (String × String)) × GeminiState :=
  match Gemini.clientAccess s with
  | .error e => ((.error e, []), s)
  | .ok (c, s1) =>
    match genContent c.model_name prompt with
    | .error e =>
      ((.error (.runtimeError "Failed to generate text with Gemini API" (.transport e)),
        [(c.model_name, prompt)]), s1)
    | .ok resp => ((.ok resp.text, [(c.model_name, prompt)]), s1)

/-- `Gemini.structured_response`: pops `llm_model` (unused), issues one
request through the structured client, wrapping any exception in
`RuntimeError ... from e`. -/
def Gemini.structuredResponse (s : GeminiState)
    (create : String → Except Nat GeminiResp)
    (prompt : String) (llmModelKwarg : Option String) :
    (Except PyErr GeminiResp × List String) × GeminiState :=
  match Gemini.structuredClientAccess s with
  | .error e => ((.error e, []), s)
  | .ok (_, s1) =>
    match create prompt with
    | .error e =>
      ((.error (.runtimeError "Failed to send structured response to Gemini API" (.transport e)),
        [prompt]), s1)
    | .ok resp => ((.ok resp, [prompt]), s1)

/-! ## Groq adapter (`src/simplemind/providers/groq.py`) -/

def Groq.PROVIDER_NAME : String := "groq"

def Groq.DEFAULT_MODEL : String := "llama3-8b-8192"

/-- A constructed `groq.Groq` client handle: the key it was given and a
construction index, so that distinct constructions are distinguishable. -/
structure GroqClient where
  api_key : String
  cid : Nat
deriving Repr, DecidableEq

/-- Instance state of a `Groq` adapter: the resolved `api_key` and a
counter of client constructions performed.  Both `client` and
`structured_client` are plain `@property`, so there are no cache slots. -/
structure GroqState where
  api_key : Option String
  constructions : Nat
deriving Repr, DecidableEq

/-- `Groq.__init__`: `self.api_key = api_key or settings.get_api_key(...)`.
Only an assignment; total. -/
def Groq.init (api_key settingsKey : Option String) : GroqState :=
  { api_key := if pyStrTruthy api_key then api_key else settingsKey
    constructions := 0 }

/-- The `client` property: raises `ValueError` when the key is missing,
otherwise constructs and returns a fresh `groq.Groq` client on EVERY
access (plain `@property`, no caching). -/
def Groq.clientAccess (s : GroqState) : Except PyErr (GroqClient × GroqState) :=
  if pyStrTruthy s.api_key then
    .ok ({ api_key := s.api_key.getD "", cid := s.constructions },
         { s with constructions := s.constructions + 1 })
  else .error (.valueError "Groq API key is required")

/-- The `structured_client` property: `instructor.from_groq(self.client)`;
it goes through the `client` property, so it too constructs a fresh
client on every access. -/
def Groq.structuredClientAccess (s : GroqState) : Except PyErr (GroqClient × GroqState) :=
  Groq.clientAccess s

/-- One `chat.completions.create` request as the Groq (or Ollama, below)
transport receives it: the resolved model and the full message list as
(role, content) pairs. -/
structure ChatCall where
  model : String
  messages : List (String × Option String)
deriving Repr, DecidableEq

/-- A choice's message in a Groq chat-completions response. -/
structure GroqChoiceMsg where
  content : Option String
deriving Repr, DecidableEq

/-- A Groq chat-completions response: its choices and an opaque identity
used for the `raw` field. -/
structure GroqResp where
  choices : List GroqChoiceMsg
  rid : Nat
deriving Repr, DecidableEq

/-- `Groq.send_conversation`: builds the full message list, makes ONE
`chat.completions.create` call with `model = conversation.llm_model or
DEFAULT_MODEL` (no emptiness check, no try/except: transport exceptions
propagate raw), takes `response.choices[0]` (IndexError when empty) and
returns the canonical Message with `content or ""` as text. -/
def Groq.sendConversation (s : GroqState)
    (create : ChatCall → Except Nat GroqResp) (conv : Conversation) :
    (Except PyErr Message × List ChatCall) × GroqState :=
  let msgs := conv.messages.map fun m => (m.role, m.text)
  match Groq.clientAccess s with
  | .error e => ((.error e, []), s)
  | .ok (_, s1) =>
    let call : ChatCall := { model := pyOrStr conv.llm_model Groq.DEFAULT_MODEL, messages := msgs }
    match create call with
    | .error e => ((.error (.transport e), [call]), s1)
    | .ok resp =>
      match resp.choices.head? with
      | none => ((.error .indexError, [call]), s1)
      | some choice =>
        ((.ok { role := "assistant", text := some (pyOrStr choice.content ""), raw := resp.rid,
                llm_model := pyOrStr conv.llm_model Groq.DEFAULT_MODEL,
                llm_provider := Groq.PROVIDER_NAME },
          [call]), s1)

/-- `Groq.generate_text(prompt, *, llm_model)`: `llm_model` is a REQUIRED
keyword argument (no default).  Issues one request through the
structured client against exactly that model; no try/except.  Returns
`response.choices[0].message.content`, which may be `None`. -/
def Groq.generateText (s : GroqState)
    (create : ChatCall → Except Nat GroqResp)
    (prompt : String) (llm_model : String) :
    (Except PyErr (Option String) × List ChatCall) × GroqState :=
  match Groq.structuredClientAccess s with
  | .error e => ((.error e, []), s)
  | .ok (_, s1) =>
    let call : ChatCall := { model := llm_model, messages := [("user", some prompt)] }
    match create call with
    | .error e => ((.error (.transport e), [call]), s1)
    | .ok resp =>
      match resp.choices.head? with
      | none => ((.error .indexError, [call]), s1)
      | some choice => ((.ok choice.content, [call]), s1)

/-- `Groq.structured_response`: one request through the structured
client (no model argument at all); no try/except, the validated response
is returned as-is. -/
def Groq.structuredResponse (s : GroqState)
    (create : String → Except Nat GroqResp) (prompt : String) :
    (Except PyErr GroqResp × List String) × GroqState :=
  match Groq.structuredClientAccess s with
  | .error e => ((.error e, []), s)
  | .ok (_, s1) =>
    match create prompt with
    | .error e => ((.error (.transport e), [prompt]), s1)
    | .ok resp => ((.ok resp, [prompt]), s1)

/-! ## Ollama adapter (`src/simplemind/providers/ollama.py`) -/

def Ollama.PROVIDER_NAME : String := "ollama"

def Ollama.DEFAULT_MODEL : String := "llama3.2"

/-- A constructed Ollama client handle (raw `ol.Client` or the
instructor-patched OpenAI client): the url it was given and a
construction index. -/
structure OllamaClient where
  url : String
  cid : Nat
deriving Repr, DecidableEq

/-- Instance state of an `Ollama` adapter: the resolved `host_url`, the
`cached_property` slots for `client` and `structured_client`, and a
construction counter. -/
structure OllamaState where
  host_url : Option String
  cachedClient : Option OllamaClient
  cachedStructured : Option OllamaClient
  constructions : Nat
deriving Repr, DecidableEq

/-- `Ollama.__init__`: `self.host_url = host_url or settings.OLLAMA_HOST_URL`.
Only an assignment; total. -/
def Ollama.init (host_url settingsHost : Option String) : OllamaState :=
  { host_url := if pyStrTruthy host_url then host_url else settingsHost
    cachedClient := none
    cachedStructured := none
    constructions := 0 }

/-- The `client` cached property: on a cache miss, raises `ValueError`
when `host_url` is missing, otherwise constructs `ol.Client(...)` and
caches it (the `ollama` package import is taken as available). -/
def Ollama.clientAccess (s : OllamaState) : Except PyErr (OllamaClient × OllamaState) :=
  match s.cachedClient with
  | some c => .ok (c, s)
  | none =>
    if pyStrTruthy s.host_url then
      let c : OllamaClient := { url := s.host_url.getD "", cid := s.constructions }
      .ok (c, { s with cachedClient := some c, constructions := s.constructions + 1 })
    else .error (.valueError "No ollama host url provided")

/-- The `structured_client` cached property: builds an OpenAI client at
`f-string of host_url + "/v1"` (note: no missing-url check here; Python
renders a missing url as the string `None`) and caches it. -/
def Ollama.structuredClientAccess (s : OllamaState) : (OllamaClient × OllamaState) :=
  match s.cachedStructured with
  | some c => (c, s)
  | none =>
    let base := (match s.host_url with | none => "None" | some h => h) ++ "/v1"
    let c : OllamaClient := { url := base, cid := s.constructions }
    (c, { s with cachedStructured := some c, constructions := s.constructions + 1 })

/-- The `message` dict inside an Ollama chat response: its optional
`content` key (absent key modelled as `none`). -/
structure OllamaMsgDict where
  content : Option String
deriving Repr, DecidableEq

/-- An Ollama chat response dict: its optional `message` key and an
opaque identity used for the `raw` field. -/
structure OllamaRespDict where
  message : Option OllamaMsgDict
  rid : Nat
deriving Repr, DecidableEq

/-- `Ollama.send_conversation`: builds the full message list, makes ONE
`client.chat` call with `model = conversation.llm_model or DEFAULT_MODEL`
(no emptiness check, no try/except: transport exceptions propagate raw);
then `response.get("message").get("content")` — when the `message` key is
absent, `None.get` raises `AttributeError`; the content (possibly
`None`) becomes the Message text. -/
def Ollama.sendConversation (s : OllamaState)
    (chat : ChatCall → Except Nat OllamaRespDict) (conv : Conversation) :
    (Except PyErr Message × List ChatCall) × OllamaState :=
  let msgs := conv.messages.map fun m => (m.role, m.text)
  match Ollama.clientAccess s with
  | .error e => ((.error e, []), s)
  | .ok (_, s1) =>
    let call : ChatCall := { model := pyOrStr conv.llm_model Ollama.DEFAULT_MODEL, messages := msgs }
    match chat call with
    | .error e => ((.error (.transport e), [call]), s1)
    | .ok resp =>
      match resp.message with
      | none => ((.error .attributeError, [call]), s1)
      | some m =>
        ((.ok { role := "assistant", text := m.content, raw := resp.rid,
                llm_model := pyOrStr conv.llm_model Ollama.DEFAULT_MODEL,
                llm_provider := Ollama.PROVIDER_NAME },
          [call]), s1)

/-- The text extraction of `Ollama.generate_text`:
`response.get("message", {}).get("content", "")` — both `get`s have
defaults, so a missing `message` key or a missing `content` key yields
the empty string. -/
def Ollama.extractText (resp : OllamaRespDict) : String :=
  ((resp.message.getD { content := none }).content).getD ""

/-- `Ollama.generate_text(prompt, *, llm_model=None)`: one `client.chat`
call with `model = llm_model or DEFAULT_MODEL`; no try/except; extracts
the text with defaulting `get`s. -/
def Ollama.generateText (s : OllamaState)
    (chat : ChatCall → Except Nat OllamaRespDict)
    (prompt : String) (llm_model : Option String) :
    (Except PyErr String × List ChatCall) × OllamaState :=
  match Ollama.clientAccess s with
  | .error e => ((.error e, []), s)
  | .ok (_, s1) =>
    let call : ChatCall := { model := pyOrStr llm_model Ollama.DEFAULT_MODEL,
                             messages := [("user", some prompt)] }
    match chat call with
    | .error e => ((.error (.transport e), [call]), s1)
    | .ok resp => ((.ok (Ollama.extractText resp), [call]), s1)

/-- `Ollama.structured_response`: one request through the structured
client against `llm_model or DEFAULT_MODEL`; no try/except. -/
def Ollama.structuredResponse (s : OllamaState)
    (create : ChatCall → Except Nat OllamaRespDict)
    (prompt : String) (llm_model : Option String) :
    (Except PyErr OllamaRespDict × List ChatCall) × OllamaState :=
  let p := Ollama.structuredClientAccess s
  let call : ChatCall := { model := pyOrStr llm_model Ollama.DEFAULT_MODEL,
                           messages := [("user", some prompt)] }
  match create call with
  | .error e => ((.error (.transport e), [call]), p.2)
  | .ok resp => ((.ok resp, [call]), p.2)

/-- The generator body of `Ollama.generate_stream_text`:
`for chunk in response: yield chunk["message"]["content"]` — bracket
access, so a chunk missing either key raises `KeyError` at that point;
chunks already yielded remain yielded.  Returns the yielded strings in
order plus the exception, if any, that ended the stream early. -/
def Ollama.streamChunks : List OllamaRespDict → List String × Option PyErr
  | [] => ([], none)
  | c :: rest =>
    match c.message with
    | none => ([], some .keyError)
    | some m =>
      match m.content with
      | none => ([], some .keyError)
      | some t =>
        let p := Ollama.streamChunks rest
        (t :: p.1, p.2)

/-- `Ollama.generate_stream_text(prompt, *, llm_model)`: one streaming
`client.chat` call with `model = llm_model or DEFAULT_MODEL`; the
transport produces a finite sequence of chunk dicts which the generator
yields one by one via `Ollama.streamChunks`. -/
def Ollama.generateStreamText (s : OllamaState)
    (chat : ChatCall → Except Nat (List OllamaRespDict))
    (prompt : String) (llm_model : String) :
    (Except PyErr (List String × Option PyErr) × List ChatCall) × OllamaState :=
  match Ollama.clientAccess s with
  | .error e => ((.error e, []), s)
  | .ok (_, s1) =>
    let call : ChatCall := { model := pyOrStr (some llm_model) Ollama.DEFAULT_MODEL,
                             messages := [("user", some prompt)] }
    match chat call with
    | .error e => ((.error (.transport e), [call]), s1)
    | .ok chunks => ((.ok (Ollama.streamChunks chunks), [call]), s1)

/-! ## Concrete fixtures used by witnesses and counterexamples -/

/-- A conversation message fixture. -/
def demoMsg (r t : String) : Message :=
  { role := r, text := some t, raw := 0, llm_model := "", llm_provider := "" }

/-- A one-message conversation with no model override. -/
def demoConv1 : Conversation := { messages := [demoMsg "user" "hi"], llm_model := none }

/-- A two-message conversation with no model override. -/
def demoConv2 : Conversation :=
  { messages := [demoMsg "user" "a", demoMsg "assistant" "b"], llm_model := none }

/-- An empty conversation. -/
def emptyConv : Conversation := { messages := [], llm_model := none }

/-- A Gemini transport that answers every send successfully. -/
def geminiOkSend : Option String → Except Nat GeminiResp :=
  fun _ => .ok { text := "ok", rid := 5 }

/-- A Gemini transport that fails every send with exception code 7. -/
def geminiFailSend : Option String → Except Nat GeminiResp := fun _ => .error 7

/-- A Groq transport that answers every request successfully. -/
def groqOkCreate : ChatCall → Except Nat GroqResp :=
  fun _ => .ok { choices := [{ content := some "ok" }], rid := 5 }

/-- A Groq transport that fails every request with exception code 7. -/
def groqFailCreate : ChatCall → Except Nat GroqResp := fun _ => .error 7

/-- An Ollama transport that answers every request successfully. -/
def ollamaOkChat : ChatCall → Except Nat OllamaRespDict :=
  fun _ => .ok { message := some { content := some "ok" }, rid := 5 }

/-- An Ollama transport that fails every request with exception code 7. -/
def ollamaFailChat : ChatCall → Except Nat OllamaRespDict := fun _ => .error 7


/-- The content of an Ollama stream chunk as the generator reads it:
`chunk["message"]["content"]`, `none` when either key is missing. -/
def Ollama.chunkContent (c : OllamaRespDict) : Option String :=
  c.message.bind OllamaMsgDict.content

/-- The `Gemini` adapter state after `init (some "k") none` followed by
one client construction. -/
def demoGeminiState1 : GeminiState :=
  { api_key := some "k", model_name := Gemini.DEFAULT_MODEL
    cachedClient := some { model_name := Gemini.DEFAULT_MODEL, cid := 0 }
    cachedStructured := none, constructions := 1 }

/-- The `Ollama` adapter state after `init (some "h") none` followed by
one client construction. -/
def demoOllamaState1 : OllamaState :=
  { host_url := some "h", cachedClient := some { url := "h", cid := 0 },
    cachedStructured := none, constructions := 1 }

/-- The Message Gemini returns for a one-message conversation under
`geminiOkSend`. -/
def demoGeminiOut : Message :=
  { role := "assistant", text := some "ok", raw := 5,
    llm_model := Gemini.DEFAULT_MODEL, llm_provider := "gemini" }

/-- A one-message conversation whose `llm_model` override is `"m2"`. -/
def demoConvM2 : Conversation := { messages := [demoMsg "user" "hi"], llm_model := some "m2" }

/-- Two stream chunks carrying the texts `"Hel"` and `"lo"`. -/
def demoChunks : List OllamaRespDict :=
  [{ message := some { content := some "Hel" }, rid := 0 },
   { message := some { content := some "lo" }, rid := 1 }]

/-! ## Helper lemmas -/

/-- Evaluating Gemini's first client access from a fresh adapter with key
`"k"`. -/
theorem geminiInitK_client :
    Gemini.clientAccess (Gemini.init (some "k") none) =
      .ok ({ model_name := Gemini.DEFAULT_MODEL, cid := 0 }, demoGeminiState1) := rfl

/-- Evaluating Groq's client access from a fresh adapter with key `"k"`. -/
theorem groqInitK_client :
    Groq.clientAccess (Groq.init (some "k") none) =
      .ok ({ api_key := "k", cid := 0 }, { api_key := some "k", constructions := 1 }) := rfl

/-- Evaluating Ollama's first client access from a fresh adapter with
host `"h"`. -/
theorem ollamaInitH_client :
    Ollama.clientAccess (Ollama.init (some "h") none) =
      .ok ({ url := "h", cid := 0 }, demoOllamaState1) := rfl

/-- When every transport send succeeds, Gemini's context-replay loop
raises nothing and sends exactly the texts of the replayed messages, in
order. -/
theorem Gemini.replay_ok (send : Option String → Except Nat GeminiResp)
    (hok : ∀ t, ∃ r, send t = .ok r) :
    ∀ (l : List Message) (tr : List (Option String)),
      Gemini.replay send l tr = (none, tr ++ l.map Message.text)
  | [], tr => by simp [Gemini.replay]
  | m :: rest, tr => by
    obtain ⟨r, hr⟩ := hok m.text
    simp [Gemini.replay, hr, Gemini.replay_ok send hok rest (tr ++ [m.text])]

/-- A successful Gemini client access from a state with an empty cache
slot leaves `model_name` at the default. -/
theorem Gemini.clientAccess_fresh_model (s : GeminiState) (c : GeminiClient)
    (s1 : GeminiState) (hcache : s.cachedClient = none)
    (h : Gemini.clientAccess s = .ok (c, s1)) :
    s1.model_name = Gemini.DEFAULT_MODEL := by
  simp only [Gemini.clientAccess, hcache] at h
  split at h
  · simp only [Except.ok.injEq, Prod.mk.injEq] at h
    obtain ⟨hc, hs⟩ := h
    subst hs
    rfl
  · cases h

/-- When every chunk has a `message.content`, the stream generator
yields exactly those contents in order and raises nothing. -/
theorem Ollama.streamChunks_allSome :
    ∀ chunks : List OllamaRespDict, (∀ c ∈ chunks, (Ollama.chunkContent c).isSome = true) →
      Ollama.streamChunks chunks =
        (chunks.map fun c => (Ollama.chunkContent c).getD "", none)
  | [], _ => rfl
  | c :: rest, h => by
    have hc := h c (List.mem_cons_self c rest)
    cases hmsg : c.message with
    | none => simp [Ollama.chunkContent, hmsg] at hc
    | some m =>
      cases hcon : m.content with
      | none => simp [Ollama.chunkContent, hmsg, hcon] at hc
      | some t =>
        have ih := Ollama.streamChunks_allSome rest fun x hx => h x (List.mem_cons_of_mem c hx)
        simp [Ollama.streamChunks, hmsg, hcon, ih, Ollama.chunkContent]

/-! ## Claims -/

/-- C1: for each of the Gemini, Groq and Ollama adapters, the Message
returned by `send_conversation` on a (necessarily non-empty)
conversation has `role = "assistant"` and `llm_provider` equal to the
adapter's provider name ("gemini", "groq", "ollama").  Stated for every
conversation and transport: whenever the call returns a Message at all,
both fields hold. -/
theorem c1_send_conversation_role_and_provider :
    (∀ s send conv m tr s1,
       Gemini.sendConversation s send conv = ((.ok m, tr), s1) →
       m.role = "assistant" ∧ m.llm_provider = "gemini") ∧
    (∀ s create conv m tr s1,
       Groq.sendConversation s create conv = ((.ok m, tr), s1) →
       m.role = "assistant" ∧ m.llm_provider = "groq") ∧
    (∀ s chat conv m tr s1,
       Ollama.sendConversation s chat conv = ((.ok m, tr), s1) →
       m.role = "assistant" ∧ m.llm_provider = "ollama") := by
  refine ⟨?_, ?_, ?_⟩ <;>
    · intro s o conv m tr s1 h
      first
        | simp only [Gemini.sendConversation] at h
        | simp only [Groq.sendConversation] at h
        | simp only [Ollama.sendConversation] at h
      repeat' split at h
      all_goals simp only [Prod.mk.injEq, Except.ok.injEq, reduceCtorEq, false_and] at h
      all_goals obtain ⟨⟨hm, htr⟩, hs⟩ := h
      all_goals subst hm
      all_goals exact ⟨rfl, rfl⟩

/-- Witness for C1: at the concrete one-message conversation and an
always-successful transport, Gemini's `send_conversation` returns
`demoGeminiOut`, and the theorem yields its role/provider fields. -/
theorem c1_send_conversation_role_and_provider_witness :
    Gemini.sendConversation (Gemini.init (some "k") none) geminiOkSend demoConv1 =
      ((.ok demoGeminiOut, [some "hi"]), demoGeminiState1) ∧
    (demoGeminiOut.role = "assistant" ∧ demoGeminiOut.llm_provider = "gemini") :=
  ⟨rfl,
   c1_send_conversation_role_and_provider.1 (Gemini.init (some "k") none) geminiOkSend
     demoConv1 demoGeminiOut [some "hi"] demoGeminiState1 rfl⟩

/-- Counterexample to C2: Groq's `send_conversation` has no try/except,
so when the transport raises (code 7) the raw transport exception
reaches the caller unwrapped — it is not re-raised in the adapter's
canonical wrapped form. -/
theorem c2_counterexample :
    (Groq.sendConversation (Groq.init (some "k") none) groqFailCreate demoConv1).1.1 =
      .error (.transport 7) ∧
    (PyErr.transport 7).isWrapped = false := ⟨rfl, rfl⟩

/-- C2 as amended: only Gemini wraps — its `generate_text`,
`structured_response` and the final send of `send_conversation` re-raise
any transport exception as a `RuntimeError` carrying the original cause;
but transport exceptions raised during Gemini's context-replay sends,
and in every Groq and Ollama operation, propagate to the caller raw. -/
theorem c2_amended_wrapping_gemini_only :
    ∀ e : Nat,
    (Gemini.generateText (Gemini.init (some "k") none) (fun _ _ => .error e) "p" none).1.1 =
      .error (.runtimeError "Failed to generate text with Gemini API" (.transport e)) ∧
    (Gemini.structuredResponse (Gemini.init (some "k") none) (fun _ => .error e) "p" none).1.1 =
      .error (.runtimeError "Failed to send structured response to Gemini API" (.transport e)) ∧
    (Gemini.sendConversation (Gemini.init (some "k") none) (fun _ => .error e) demoConv1).1.1 =
      .error (.runtimeError "Failed to send conversation to Gemini API" (.transport e)) ∧
    (Gemini.sendConversation (Gemini.init (some "k") none)
        (fun t => if t = some "a" then .error e else .ok { text := "ok", rid := 0 })
        demoConv2).1.1 =
      .error (.transport e) ∧
    (Groq.sendConversation (Groq.init (some "k") none) (fun _ => .error e) demoConv1).1.1 =
      .error (.transport e) ∧
    (Groq.generateText (Groq.init (some "k") none) (fun _ => .error e) "p" "m").1.1 =
      .error (.transport e) ∧
    (Groq.structuredResponse (Groq.init (some "k") none) (fun _ => .error e) "p").1.1 =
      .error (.transport e) ∧
    (Ollama.sendConversation (Ollama.init (some "h") none) (fun _ => .error e) demoConv1).1.1 =
      .error (.transport e) ∧
    (Ollama.generateText (Ollama.init (some "h") none) (fun _ => .error e) "p" none).1.1 =
      .error (.transport e) ∧
    (Ollama.structuredResponse (Ollama.init (some "h") none) (fun _ => .error e) "p" none).1.1 =
      .error (.transport e) :=
  fun _ => ⟨rfl, rfl, rfl, rfl, rfl, rfl, rfl, rfl, rfl, rfl⟩

/-- Counterexample to C3: Ollama's `send_conversation` performs no
emptiness validation at all — on an empty conversation it invokes the
transport (once, with an empty message list) and, on a well-formed
response, even returns a Message instead of raising. -/
theorem c3_counterexample :
    (Ollama.sendConversation (Ollama.init (some "h") none) ollamaOkChat emptyConv).1.2 =
      [{ model := "llama3.2", messages := [] }] ∧
    (Ollama.sendConversation (Ollama.init (some "h") none) ollamaOkChat emptyConv).1.1 =
      .ok { role := "assistant", text := some "ok", raw := 5,
            llm_model := "llama3.2", llm_provider := "ollama" } := ⟨rfl, rfl⟩

/-- C3 as amended: on an empty conversation Gemini raises an error (a
`RuntimeError` wrapping the `IndexError` from indexing the last message)
after zero transport sends, while Groq and Ollama perform no validation
and invoke the transport exactly once, with an empty message list. -/
theorem c3_amended_empty_conversation :
    (∀ send : Option String → Except Nat GeminiResp,
       (Gemini.sendConversation (Gemini.init (some "k") none) send emptyConv).1 =
         (.error (.runtimeError "Failed to send conversation to Gemini API" .indexError), [])) ∧
    (∀ create : ChatCall → Except Nat GroqResp,
       (Groq.sendConversation (Groq.init (some "k") none) create emptyConv).1.2 =
         [{ model := Groq.DEFAULT_MODEL, messages := [] }]) ∧
    (∀ chat : ChatCall → Except Nat OllamaRespDict,
       (Ollama.sendConversation (Ollama.init (some "h") none) chat emptyConv).1.2 =
         [{ model := Ollama.DEFAULT_MODEL, messages := [] }]) := by
  refine ⟨fun send => rfl, fun create => ?_, fun chat => ?_⟩
  · simp only [Groq.sendConversation, groqInitK_client]
    repeat' split
    all_goals rfl
  · simp only [Ollama.sendConversation, ollamaInitH_client]
    repeat' split
    all_goals rfl

/-- Counterexample to C4: on a two-message conversation, Groq's
transport receives a single request carrying both messages — not one
context-establishing send followed by a final send. -/
theorem c4_counterexample :
    (Groq.sendConversation (Groq.init (some "k") none) groqOkCreate demoConv2).1.2 =
      [{ model := Groq.DEFAULT_MODEL,
         messages := [("user", some "a"), ("assistant", some "b")] }] ∧
    ((Groq.sendConversation (Groq.init (some "k") none) groqOkCreate demoConv2).1.2).length = 1 ∧
    demoConv2.messages.length = 2 := ⟨rfl, rfl, rfl⟩

/-- C4 as amended: only Gemini replays — its transport receives one send
per message, the texts of all the conversation's messages in order (all
but the last from the context-replay loop, then the last); Groq and
Ollama instead make a single transport request whose payload contains
all of the conversation's messages in order. -/
theorem c4_amended_replay_vs_single_call :
    (∀ s send conv, pyStrTruthy s.api_key = true → (∀ t, ∃ r, send t = .ok r) →
       conv.messages ≠ [] →
       (Gemini.sendConversation s send conv).1.2 = conv.messages.map Message.text) ∧
    (∀ s create conv, pyStrTruthy s.api_key = true →
       (Groq.sendConversation s create conv).1.2 =
         [{ model := pyOrStr conv.llm_model Groq.DEFAULT_MODEL,
            messages := conv.messages.map fun m => (m.role, m.text) }]) ∧
    (∀ s chat conv, pyStrTruthy s.host_url = true →
       (Ollama.sendConversation s chat conv).1.2 =
         [{ model := pyOrStr conv.llm_model Ollama.DEFAULT_MODEL,
            messages := conv.messages.map fun m => (m.role, m.text) }]) := by
  refine ⟨?_, ?_, ?_⟩
  · intro s send conv hk hok hne
    simp only [Gemini.sendConversation]
    split
    · rename_i e heq
      cases hcache : s.cachedClient <;> simp [Gemini.clientAccess, hcache, hk] at heq
    · rename_i c s1 heq
      rw [Gemini.replay_ok send hok conv.messages.dropLast []]
      rw [List.getLast?_eq_getLast_of_ne_nil hne]
      obtain ⟨r, hr⟩ := hok (conv.messages.getLast hne).text
      simp only [hr, List.nil_append]
      have : conv.messages.dropLast.map Message.text ++ [(conv.messages.getLast hne).text] =
          conv.messages.map Message.text := by
        rw [show [(conv.messages.getLast hne).text] =
              [conv.messages.getLast hne].map Message.text from rfl,
            ← List.map_append, List.dropLast_append_getLast hne]
      simpa using this
  · intro s create conv hk
    simp only [Groq.sendConversation, Groq.clientAccess, hk, if_true]
    repeat' split
    all_goals rfl
  · intro s chat conv hh
    simp only [Ollama.sendConversation]
    split
    · rename_i e heq
      cases hcache : s.cachedClient <;> simp [Ollama.clientAccess, hcache, hh] at heq
    · repeat' split
      all_goals rfl

/-- Witness for C4 (amended): on the concrete two-message conversation,
Gemini's transport receives both message texts as successive sends,
while Groq's receives one request carrying both messages. -/
theorem c4_amended_replay_vs_single_call_witness :
    (pyStrTruthy (Gemini.init (some "k") none).api_key = true ∧
     demoConv2.messages ≠ [] ∧
     (Gemini.sendConversation (Gemini.init (some "k") none) geminiOkSend demoConv2).1.2 =
       demoConv2.messages.map Message.text) ∧
    pyStrTruthy (Groq.init (some "k") none).api_key = true ∧
    (Groq.sendConversation (Groq.init (some "k") none) groqOkCreate demoConv2).1.2 =
      [{ model := pyOrStr demoConv2.llm_model Groq.DEFAULT_MODEL,
         messages := demoConv2.messages.map fun m => (m.role, m.text) }] :=
  ⟨⟨rfl, by simp [demoConv2],
    c4_amended_replay_vs_single_call.1 (Gemini.init (some "k") none) geminiOkSend demoConv2 rfl
      (fun t => ⟨{ text := "ok", rid := 5 }, rfl⟩) (by simp [demoConv2])⟩,
   rfl,
   c4_amended_replay_vs_single_call.2.1 (Groq.init (some "k") none) groqOkCreate demoConv2 rfl⟩

/-- Counterexample to C5: with `conversation.llm_model = "m2"`, Gemini's
returned Message carries the adapter default model, not `"m2"` — Gemini
ignores the conversation's model override entirely. -/
theorem c5_counterexample :
    (Gemini.sendConversation (Gemini.init (some "k") none) geminiOkSend demoConvM2).1.1 =
      .ok demoGeminiOut ∧
    demoGeminiOut.llm_model = "models/gemini-1.5-flash-latest" ∧
    "models/gemini-1.5-flash-latest" ≠ "m2" := ⟨rfl, rfl, by decide⟩

/-- C5 as amended: Groq and Ollama resolve the model as
`conversation.llm_model or default` and use that same resolved model
both in the transport request and in the returned Message's
`llm_model`; Gemini (from a fresh adapter instance) always reports its
default model, ignoring `conversation.llm_model`. -/
theorem c5_amended_model_resolution :
    (∀ s create conv m tr s1,
       Groq.sendConversation s create conv = ((.ok m, tr), s1) →
       m.llm_model = pyOrStr conv.llm_model Groq.DEFAULT_MODEL ∧
       ∀ c ∈ tr, c.model = pyOrStr conv.llm_model Groq.DEFAULT_MODEL) ∧
    (∀ s chat conv m tr s1,
       Ollama.sendConversation s chat conv = ((.ok m, tr), s1) →
       m.llm_model = pyOrStr conv.llm_model Ollama.DEFAULT_MODEL ∧
       ∀ c ∈ tr, c.model = pyOrStr conv.llm_model Ollama.DEFAULT_MODEL) ∧
    (∀ k sk send conv m tr s1,
       Gemini.sendConversation (Gemini.init k sk) send conv = ((.ok m, tr), s1) →
       m.llm_model = Gemini.DEFAULT_MODEL) := by
  refine ⟨?_, ?_, ?_⟩
  · intro s create conv m tr s1 h
    simp only [Groq.sendConversation] at h
    repeat' split at h
    all_goals simp only [Prod.mk.injEq, Except.ok.injEq, reduceCtorEq, false_and] at h
    obtain ⟨⟨hm, htr⟩, hs⟩ := h
    subst hm
    subst htr
    exact ⟨rfl, by simp⟩
  · intro s chat conv m tr s1 h
    simp only [Ollama.sendConversation] at h
    repeat' split at h
    all_goals simp only [Prod.mk.injEq, Except.ok.injEq, reduceCtorEq, false_and] at h
    obtain ⟨⟨hm, htr⟩, hs⟩ := h
    subst hm
    subst htr
    exact ⟨rfl, by simp⟩
  · intro k sk send conv m tr s1 h
    simp only [Gemini.sendConversation] at h
    repeat' split at h
    all_goals simp only [Prod.mk.injEq, Except.ok.injEq, reduceCtorEq, false_and] at h
    obtain ⟨⟨hm, htr⟩, hs⟩ := h
    subst hm
    exact Gemini.clientAccess_fresh_model (Gemini.init k sk) _ _ rfl (by assumption)

/-- Witness for C5 (amended): for the conversation with override `"m2"`,
Groq's request and Message both use `"m2"`, while Gemini's Message still
carries the default model. -/
theorem c5_amended_model_resolution_witness :
    Groq.sendConversation (Groq.init (some "k") none) groqOkCreate demoConvM2 =
      ((.ok { role := "assistant", text := some "ok", raw := 5,
              llm_model := "m2", llm_provider := "groq" },
        [{ model := "m2", messages := [("user", some "hi")] }]),
       { api_key := some "k", constructions := 1 }) ∧
    ("m2" = pyOrStr demoConvM2.llm_model Groq.DEFAULT_MODEL) ∧
    Gemini.sendConversation (Gemini.init (some "k") none) geminiOkSend demoConvM2 =
      ((.ok demoGeminiOut, [some "hi"]), demoGeminiState1) ∧
    demoGeminiOut.llm_model = Gemini.DEFAULT_MODEL :=
  ⟨rfl, rfl, rfl,
   c5_amended_model_resolution.2.2 (some "k") none geminiOkSend demoConvM2 demoGeminiOut
     [some "hi"] demoGeminiState1 rfl⟩

/-- Counterexample to C6: Gemini's `generate_text` pops the `llm_model`
option and never uses it — called with override `"m2"`, the transport
request is still issued against the adapter default model. -/
theorem c6_counterexample :
    (Gemini.generateText (Gemini.init (some "k") none)
        (fun _ _ => .ok { text := "ok", rid := 5 }) "hi" (some "m2")).1.2 =
      [(Gemini.DEFAULT_MODEL, "hi")] ∧
    Gemini.DEFAULT_MODEL ≠ "m2" := ⟨rfl, by decide⟩

/-- C6 as amended: Ollama's `generate_text` honors the per-call override
(requests go to `"m2"` when it is given, to the default model when it is
omitted); Groq's `generate_text` requires the model as a mandatory
keyword argument and requests exactly that model (there is no
no-override call); Gemini's `generate_text` ignores the override and
always requests its default model. -/
theorem c6_amended_model_override :
    ∀ (prompt : String) (chat : ChatCall → Except Nat OllamaRespDict)
      (create : ChatCall → Except Nat GroqResp)
      (gen : String → String → Except Nat GeminiResp),
    (Ollama.generateText (Ollama.init (some "h") none) chat prompt (some "m2")).1.2 =
      [{ model := "m2", messages := [("user", some prompt)] }] ∧
    (Ollama.generateText (Ollama.init (some "h") none) chat prompt none).1.2 =
      [{ model := Ollama.DEFAULT_MODEL, messages := [("user", some prompt)] }] ∧
    (Groq.generateText (Groq.init (some "k") none) create prompt "m2").1.2 =
      [{ model := "m2", messages := [("user", some prompt)] }] ∧
    (Gemini.generateText (Gemini.init (some "k") none) gen prompt (some "m2")).1.2 =
      [(Gemini.DEFAULT_MODEL, prompt)] := by
  intro prompt chat create gen
  refine ⟨?_, ?_, ?_, ?_⟩
  · simp only [Ollama.generateText, ollamaInitH_client]
    repeat' split
    all_goals rfl
  · simp only [Ollama.generateText, ollamaInitH_client]
    repeat' split
    all_goals rfl
  · simp only [Groq.generateText, Groq.structuredClientAccess, groqInitK_client]
    repeat' split
    all_goals rfl
  · simp only [Gemini.generateText, geminiInitK_client]
    repeat' split
    all_goals rfl

/-- Counterexample to C7: Groq's `client` is a plain property — two
successive accesses on the same instance construct two distinct client
handles (the construction counter reaches 2), instead of returning one
cached handle. -/
theorem c7_counterexample :
    Groq.clientAccess (Groq.init (some "k") none) =
      .ok ({ api_key := "k", cid := 0 }, { api_key := some "k", constructions := 1 }) ∧
    Groq.clientAccess { api_key := some "k", constructions := 1 } =
      .ok ({ api_key := "k", cid := 1 }, { api_key := some "k", constructions := 2 }) ∧
    ({ api_key := "k", cid := 0 } : GroqClient) ≠ { api_key := "k", cid := 1 } ∧
    ({ api_key := some "k", constructions := 2 } : GroqState).constructions = 2 :=
  ⟨rfl, rfl, by decide, rfl⟩

/-- C7 as amended: Gemini and Ollama cache both handles (after a
successful access, accessing again returns the identical handle and
leaves the state — including the construction count — unchanged), while
every successful access to Groq's `client` constructs a fresh handle and
increments the construction count. -/
theorem c7_amended_caching :
    (∀ s c s1, Gemini.clientAccess s = .ok (c, s1) →
       Gemini.clientAccess s1 = .ok (c, s1)) ∧
    (∀ s c s1, Gemini.structuredClientAccess s = .ok (c, s1) →
       Gemini.structuredClientAccess s1 = .ok (c, s1)) ∧
    (∀ s c s1, Ollama.clientAccess s = .ok (c, s1) →
       Ollama.clientAccess s1 = .ok (c, s1)) ∧
    (∀ s c s1, Ollama.structuredClientAccess s = (c, s1) →
       Ollama.structuredClientAccess s1 = (c, s1)) ∧
    (∀ s c s1, Groq.clientAccess s = .ok (c, s1) →
       s1.constructions = s.constructions + 1 ∧ c.cid = s.constructions) := by
  refine ⟨?_, ?_, ?_, ?_, ?_⟩
  · intro s c s1 h
    simp only [Gemini.clientAccess] at h ⊢
    split at h
    · rename_i c0 hcache
      simp only [Except.ok.injEq, Prod.mk.injEq] at h
      obtain ⟨hc, hs⟩ := h
      subst hc
      subst hs
      simp [hcache]
    · split at h
      · simp only [Except.ok.injEq, Prod.mk.injEq] at h
        obtain ⟨hc, hs⟩ := h
        subst hc
        subst hs
        rfl
      · cases h
  · intro s c s1 h
    simp only [Gemini.structuredClientAccess] at h ⊢
    split at h
    · rename_i c0 hcache
      simp only [Except.ok.injEq, Prod.mk.injEq] at h
      obtain ⟨hc, hs⟩ := h
      subst hc
      subst hs
      simp [hcache]
    · split at h
      · cases h
      · rename_i c0 s2 heq
        simp only [Except.ok.injEq, Prod.mk.injEq] at h
        obtain ⟨hc, hs⟩ := h
        subst hc
        subst hs
        rfl
  · intro s c s1 h
    simp only [Ollama.clientAccess] at h ⊢
    split at h
    · rename_i c0 hcache
      simp only [Except.ok.injEq, Prod.mk.injEq] at h
      obtain ⟨hc, hs⟩ := h
      subst hc
      subst hs
      simp [hcache]
    · split at h
      · simp only [Except.ok.injEq, Prod.mk.injEq] at h
        obtain ⟨hc, hs⟩ := h
        subst hc
        subst hs
        rfl
      · cases h
  · intro s c s1 h
    simp only [Ollama.structuredClientAccess] at h ⊢
    split at h
    · rename_i c0 hcache
      simp only [Prod.mk.injEq] at h
      obtain ⟨hc, hs⟩ := h
      subst hc
      subst hs
      simp [hcache]
    · simp only [Prod.mk.injEq] at h
      obtain ⟨hc, hs⟩ := h
      subst hc
      subst hs
      rfl
  · intro s c s1 h
    simp only [Groq.clientAccess] at h
    split at h
    · simp only [Except.ok.injEq, Prod.mk.injEq] at h
      obtain ⟨hc, hs⟩ := h
      subst hc
      subst hs
      exact ⟨rfl, rfl⟩
    · cases h

/-- Witness for C7 (amended): from a fresh Gemini adapter, the first
client access constructs handle 0 and the second returns the identical
cached handle with the state unchanged; a successful Groq access bumps
the construction count. -/
theorem c7_amended_caching_witness :
    Gemini.clientAccess (Gemini.init (some "k") none) =
      .ok ({ model_name := Gemini.DEFAULT_MODEL, cid := 0 }, demoGeminiState1) ∧
    Gemini.clientAccess demoGeminiState1 =
      .ok ({ model_name := Gemini.DEFAULT_MODEL, cid := 0 }, demoGeminiState1) ∧
    ({ api_key := some "k", constructions := 1 } : GroqState).constructions =
      (Groq.init (some "k") none).constructions + 1 :=
  ⟨rfl,
   c7_amended_caching.1 (Gemini.init (some "k") none)
     { model_name := Gemini.DEFAULT_MODEL, cid := 0 } demoGeminiState1 rfl,
   (c7_amended_caching.2.2.2.2 (Groq.init (some "k") none) { api_key := "k", cid := 0 }
      { api_key := some "k", constructions := 1 } rfl).1⟩

/-- C8: constructing each adapter with a missing (null) credential (and
a null value from the settings lookup) succeeds — `init` is a total
function, since `__init__` only assigns attributes — and the
configuration error for the missing credential (realized in the code as
`ValueError`) is raised exactly at the first access of the `client`
handle. -/
theorem c8_missing_credential_lazy_failure :
    (Gemini.init none none).api_key = none ∧
    Gemini.clientAccess (Gemini.init none none) =
      .error (.valueError "Gemini API key is required") ∧
    (Groq.init none none).api_key = none ∧
    Groq.clientAccess (Groq.init none none) =
      .error (.valueError "Groq API key is required") ∧
    (Ollama.init none none).host_url = none ∧
    Ollama.clientAccess (Ollama.init none none) =
      .error (.valueError "No ollama host url provided") :=
  ⟨rfl, rfl, rfl, rfl, rfl, rfl⟩

/-- C9: for every prompt, model and finite chunk sequence in which every
chunk carries a `message.content`, `Ollama.generate_stream_text` yields
exactly the content of each chunk — one yielded string per chunk, in
transport order, with no reordering, duplication or early termination. -/
theorem c9_stream_yields_in_order :
    ∀ (prompt llm : String) (chunks : List OllamaRespDict),
      (∀ c ∈ chunks, (Ollama.chunkContent c).isSome = true) →
      Ollama.generateStreamText (Ollama.init (some "h") none) (fun _ => .ok chunks) prompt llm =
        ((.ok (chunks.map fun c => (Ollama.chunkContent c).getD "", none),
          [{ model := pyOrStr (some llm) Ollama.DEFAULT_MODEL,
             messages := [("user", some prompt)] }]),
         demoOllamaState1) := by
  intro prompt llm chunks h
  simp only [Ollama.generateStreamText, ollamaInitH_client]
  rw [Ollama.streamChunks_allSome chunks h]

/-- Witness for C9: a transport producing the chunks "Hel", "lo" makes
`generate_stream_text` yield exactly ["Hel", "lo"]. -/
theorem c9_stream_yields_in_order_witness :
    (∀ c ∈ demoChunks, (Ollama.chunkContent c).isSome = true) ∧
    Ollama.generateStreamText (Ollama.init (some "h") none) (fun _ => .ok demoChunks) "p" "m" =
      ((.ok (demoChunks.map fun c => (Ollama.chunkContent c).getD "", none),
        [{ model := "m", messages := [("user", some "p")] }]),
       demoOllamaState1) ∧
    demoChunks.map (fun c => (Ollama.chunkContent c).getD "") = ["Hel", "lo"] :=
  ⟨by decide, c9_stream_yields_in_order "p" "m" demoChunks (by decide), by decide⟩

/-- C10: Ollama's `generate_text` is total over the response shape — a
response lacking the `message` key, or whose message lacks the `content`
key, yields the empty string rather than an exception; and Groq's
`send_conversation` substitutes the empty string for null content, so
the Message it returns always carries a (non-null) string text. -/
theorem c10_missing_content_defaults :
    (∀ rid : Nat, Ollama.extractText { message := none, rid := rid } = "") ∧
    (∀ rid : Nat, Ollama.extractText { message := some { content := none }, rid := rid } = "") ∧
    (∀ (resp : OllamaRespDict) (prompt : String) (llm : Option String),
       (Ollama.generateText (Ollama.init (some "h") none) (fun _ => .ok resp) prompt llm).1.1 =
         .ok (Ollama.extractText resp)) ∧
    (∀ conv : Conversation,
       (Groq.sendConversation (Groq.init (some "k") none)
           (fun _ => .ok { choices := [{ content := none }], rid := 0 }) conv).1.1 =
         .ok { role := "assistant", text := some "", raw := 0,
               llm_model := pyOrStr conv.llm_model Groq.DEFAULT_MODEL,
               llm_provider := "groq" }) ∧
    (∀ s create conv m tr s1,
       Groq.sendConversation s create conv = ((.ok m, tr), s1) → m.text.isSome = true) := by
  refine ⟨fun _ => rfl, fun _ => rfl, fun resp prompt llm => rfl, fun conv => rfl, ?_⟩
  intro s create conv m tr s1 h
  simp only [Groq.sendConversation] at h
  repeat' split at h
  all_goals simp only [Prod.mk.injEq, Except.ok.injEq, reduceCtorEq, false_and] at h
  obtain ⟨⟨hm, htr⟩, hs⟩ := h
  subst hm
  rfl

/-- Witness for C10: with a transport returning a null-content choice,
Groq's `send_conversation` produces a Message with text `""` (a present
string), and the theorem yields its non-nullness. -/
theorem c10_missing_content_defaults_witness :
    Groq.sendConversation (Groq.init (some "k") none)
        (fun _ => .ok { choices := [{ content := none }], rid := 0 }) demoConv1 =
      ((.ok { role := "assistant", text := some "", raw := 0,
              llm_model := Groq.DEFAULT_MODEL, llm_provider := "groq" },
        [{ model := Groq.DEFAULT_MODEL, messages := [("user", some "hi")] }]),
       { api_key := some "k", constructions := 1 }) ∧
    ({ role := "assistant", text := some "", raw := 0,
       llm_model := Groq.DEFAULT_MODEL, llm_provider := "groq" } : Message).text.isSome = true :=
  ⟨rfl,
   c10_missing_content_defaults.2.2.2.2 (Groq.init (some "k") none)
     (fun _ => .ok { choices := [{ content := none }], rid := 0 }) demoConv1 _ _ _ rfl⟩

end Simplemind
